import Mathlib

/-!
Verification of the pedestrian costing module (`src/sif/pedestriancost.cc`)
of the valhalla routing engine, against its natural-language specification.

The C++ code is shallowly embedded: machine floats are modelled as exact
rationals (ℚ), machine integers as ℕ with explicit truncation where a cast
occurs in the source, the boost property tree as a record of optional
values, and graph-tile handles (`DirectedEdge*`, `NodeInfo*`, `EdgeLabel`)
as records of exactly the attributes the costing code reads.
-/

namespace Valhalla

/-- Modelled from the spec: the use classification stored on a directed
edge ("normal, footway, sidewalk, alley, driveway, steps, ferry,
roundabout-member, transit-connection, shortcut"); the enum itself lives in
a baldr header that is not among the sources.  Constructors cover every
value the costing code branches on plus representative others. -/
inductive Use where
  | kRoad
  | kRamp
  | kTrack
  | kDriveway
  | kAlley
  | kParkingAisle
  | kCuldesac
  | kFootway
  | kSidewalk
  | kSteps
  | kOther
  | kFerry
  | kRailFerry
  | kRail
  | kTransitConnection
  deriving DecidableEq, Repr

/-- Modelled from the spec: the ordered surface-quality classification
("worse = higher"); the enum lives in a baldr header not among the
sources.  Order is by the numeric code below. -/
inductive Surface where
  | kPavedSmooth
  | kPaved
  | kPavedRough
  | kCompacted
  | kDirt
  | kGravel
  | kPath
  | kImpassable
  deriving DecidableEq, Repr

/-- Numeric code of a surface value; the C++ comparison
`surface() > minimal_allowed_surface_` compares these codes. -/
def Surface.toNat : Surface → Nat
  | .kPavedSmooth => 0
  | .kPaved => 1
  | .kPavedRough => 2
  | .kCompacted => 3
  | .kDirt => 4
  | .kGravel => 5
  | .kPath => 6
  | .kImpassable => 7

/-- Modelled from the spec: the node-type classification ("normal, gate,
border-control, ..."); the enum lives in a baldr header not among the
sources. -/
inductive NodeType where
  | kStreetIntersection
  | kGate
  | kBollard
  | kTollBooth
  | kBorderControl
  | kMultiUseTransitStop
  deriving DecidableEq, Repr

/-- Pedestrian type selected by the "type" configuration string. -/
inductive PedestrianType where
  | kFoot
  | kWheelchair
  | kSegway
  deriving DecidableEq, Repr

/-- Modelled from the spec: the small-integer travel-type code persisted
for downstream narration (the enum codes live in a header not among the
sources; kFoot, kWheelchair, kSegway in declaration order). -/
def PedestrianType.code : PedestrianType → Nat
  | .kFoot => 0
  | .kWheelchair => 1
  | .kSegway => 2

/-- Graph identifier of an edge, opaque to the costing code. -/
abbrev GraphId := Nat

/-- Modelled from the spec: the directed-edge attributes read by the
pedestrian costing code ("length; a use classification; an ordered
surface-quality classification; forward-access bitmask; speed (ferries);
link flag; local edge index at its node; stop-impact severity;
left/right-neighbor-exists flags").  Lengths are metres (uint32), speed is
kph. -/
structure DirectedEdge where
  forwardaccess : Nat
  surface : Surface
  is_shortcut : Bool
  use : Use
  length : Nat
  speed : Nat
  roundabout : Bool
  link : Bool
  localedgeidx : Nat
  edge_to_right : Nat → Bool
  edge_to_left : Nat → Bool
  stopimpact : Nat → Fin 8

/-- Modelled from the spec: the node attributes read by the costing code
("node-type; access bitmask; a name-consistency bitset keyed by pairs of
local edge indices"). -/
structure NodeInfo where
  type : NodeType
  access : Nat
  name_consistency : Nat → Nat → Bool

/-- Modelled from the spec: the predecessor-state snapshot owned by the
search ("accumulated path distance so far; use-classification of the edge
just traversed; opposing local edge index"). -/
structure EdgeLabel where
  path_distance : Nat
  use : Use
  opp_local_idx : Nat

/-- The two-part cost record: ranking cost and true elapsed seconds. -/
structure Cost where
  cost : ℚ
  time : ℚ
  deriving DecidableEq, Repr

/-- Modelled from the spec: `ranged_default_t<float>`, a (min, default,
max) declaration for a tunable (the template lives in a sif header not
among the sources; `defVal` is the C++ field `def`). -/
structure RangedDefault where
  min : ℚ
  defVal : ℚ
  max : ℚ
  deriving DecidableEq, Repr

-- Maximum route distances
def kMaxDistanceFoot : Nat := 100000
def kMaxDistanceWheelchair : Nat := 10000

-- Default speeds
def kDefaultSpeedFoot : ℚ := 5.1
def kDefaultSpeedWheelchair : ℚ := 4

-- Penalty to take steps
def kDefaultStepPenaltyFoot : ℚ := 30
def kDefaultStepPenaltyWheelchair : ℚ := 600

-- Maximum grade
def kDefaultMaxGradeFoot : Nat := 90
def kDefaultMaxGradeWheelchair : Nat := 12

-- Other defaults (not dependent on type)
def kModeWeight : ℚ := 1.5
def kDefaultManeuverPenalty : ℚ := 5
def kDefaultGatePenalty : ℚ := 10
def kDefaultWalkwayFactor : ℚ := 0.9
def kDefaultSideWalkFactor : ℚ := 0.95
def kDefaultAlleyFactor : ℚ := 2
def kDefaultDrivewayFactor : ℚ := 5
def kDefaultFerryCost : ℚ := 300
def kDefaultCountryCrossingCost : ℚ := 600
def kDefaultCountryCrossingPenalty : ℚ := 0
def kDefaultUseFerry : ℚ := 1

def kTransitStartEndMaxDistance : Nat := 2415
def kTransitTransferMaxDistance : Nat := 805

def kRoundaboutFactor : ℚ := 5

-- Maximum ferry penalty (when use_ferry == 0): 8 hours
def kMaxFerryPenalty : ℚ := 8 * 3600

def kMinPedestrianSpeed : ℚ := 0.5
def kMaxPedestrianSpeed : ℚ := 25

/-- Modelled from the spec: midgard constant, seconds per hour. -/
def kSecPerHour : ℚ := 3600

/-- Crossing costs indexed by the 3-bit stop-impact severity
(`kCrossingCosts[] = \x7b 0, 0, 1, 1, 2, 3, 5, 15 \x7d`). -/
def kCrossingCosts (i : Fin 8) : ℚ :=
  match i.val with
  | 0 => 0
  | 1 => 0
  | 2 => 1
  | 3 => 1
  | 4 => 2
  | 5 => 3
  | 6 => 5
  | _ => 15

def kMaxSeconds : ℚ := 12 * kSecPerHour
def kMaxFactor : ℚ := 20

-- Valid ranges and defaults
def kMaxDistanceWheelchairRange : RangedDefault :=
  ⟨0, kMaxDistanceWheelchair, kMaxDistanceWheelchair⟩
def kMaxDistanceFootRange : RangedDefault :=
  ⟨0, kMaxDistanceFoot, kMaxDistanceFoot⟩
def kSpeedWheelchairRange : RangedDefault :=
  ⟨kMinPedestrianSpeed, kDefaultSpeedWheelchair, kMaxPedestrianSpeed⟩
def kSpeedFootRange : RangedDefault :=
  ⟨kMinPedestrianSpeed, kDefaultSpeedFoot, kMaxPedestrianSpeed⟩
def kStepPenaltyWheelchairRange : RangedDefault :=
  ⟨0, kDefaultStepPenaltyWheelchair, kMaxSeconds⟩
def kStepPenaltyFootRange : RangedDefault :=
  ⟨0, kDefaultStepPenaltyFoot, kMaxSeconds⟩
def kMaxGradeWheelchairRange : RangedDefault :=
  ⟨0, kDefaultMaxGradeWheelchair, kMaxDistanceWheelchair⟩
def kMaxGradeFootRange : RangedDefault :=
  ⟨0, kDefaultMaxGradeFoot, kMaxDistanceFoot⟩
def kModeWeightRange : RangedDefault := ⟨0, kModeWeight, kMaxFactor⟩
def kManeuverPenaltyRange : RangedDefault :=
  ⟨0, kDefaultManeuverPenalty, kMaxSeconds⟩
def kGatePenaltyRange : RangedDefault := ⟨0, kDefaultGatePenalty, kMaxSeconds⟩
def kWalkwayFactorRange : RangedDefault :=
  ⟨0, kDefaultWalkwayFactor, kMaxFactor⟩
def kSideWalkFactorRange : RangedDefault :=
  ⟨0, kDefaultSideWalkFactor, kMaxFactor⟩
def kAlleyFactorRange : RangedDefault := ⟨0, kDefaultAlleyFactor, kMaxFactor⟩
def kDrivewayFactorRange : RangedDefault :=
  ⟨0, kDefaultDrivewayFactor, kMaxFactor⟩
def kFerryCostRange : RangedDefault := ⟨0, kDefaultFerryCost, kMaxSeconds⟩
def kCountryCrossingCostRange : RangedDefault :=
  ⟨0, kDefaultCountryCrossingCost, kMaxSeconds⟩
def kCountryCrossingPenaltyRange : RangedDefault :=
  ⟨0, kDefaultCountryCrossingPenalty, kMaxSeconds⟩
def kUseFerryRange : RangedDefault := ⟨0, kDefaultUseFerry, 1⟩
def kTransitStartEndMaxDistanceRange : RangedDefault :=
  ⟨0, kTransitStartEndMaxDistance, kTransitStartEndMaxDistance⟩
def kTransitTransferMaxDistanceRange : RangedDefault :=
  ⟨0, kTransitTransferMaxDistance, kTransitTransferMaxDistance⟩

/-- Modelled from the spec: access bitmask constants from a baldr header
not among the sources; the pedestrian access bit. -/
def kPedestrianAccess : Nat := 2

/-- Modelled from the spec: access bitmask constants from a baldr header
not among the sources; the wheelchair access bit. -/
def kWheelchairAccess : Nat := 256

/-- The flat settings object ("property tree") the constructor reads: one
optional value per recognized key.  `pt.get(key, default)` becomes
`Option.getD`. -/
structure Settings where
  type : Option String
  max_distance : Option Nat
  walking_speed : Option ℚ
  step_penalty : Option ℚ
  max_grade : Option ℚ
  mode_weight : Option ℚ
  maneuver_penalty : Option ℚ
  gate_penalty : Option ℚ
  walkway_factor : Option ℚ
  sidewalk_factor : Option ℚ
  alley_factor : Option ℚ
  driveway_factor : Option ℚ
  ferry_cost : Option ℚ
  country_crossing_cost : Option ℚ
  country_crossing_penalty : Option ℚ
  transit_start_end_max_distance : Option Nat
  transit_transfer_max_distance : Option Nat
  use_ferry : Option ℚ

/-- A settings object with every key absent. -/
def emptySettings : Settings :=
  ⟨none, none, none, none, none, none, none, none, none, none, none, none,
   none, none, none, none, none, none⟩

/-- The constructed pedestrian costing profile: the fields of the
`PedestrianCost` class, plus the base-class state the methods read
(`allow_transit_connections_` and the user avoid-list, modelled from the
spec because the `DynamicCost` base class is not among the sources). -/
structure PedestrianCost where
  type_ : PedestrianType
  access_mask_ : Nat
  max_distance_ : Nat
  mode_weight_ : ℚ
  transit_start_end_max_distance_ : Nat
  transit_transfer_max_distance_ : Nat
  minimal_allowed_surface_ : Surface
  max_grade_ : Nat
  speed_ : ℚ
  speedfactor_ : ℚ
  walkway_factor_ : ℚ
  sidewalk_factor_ : ℚ
  alley_factor_ : ℚ
  driveway_factor_ : ℚ
  step_penalty_ : ℚ
  gate_penalty_ : ℚ
  maneuver_penalty_ : ℚ
  country_crossing_cost_ : ℚ
  country_crossing_penalty_ : ℚ
  ferry_cost_ : ℚ
  ferry_penalty_ : ℚ
  ferry_weight_ : ℚ
  use_ferry_ : ℚ
  allow_transit_connections_ : Bool
  user_avoid_edges : List GraphId
  deriving DecidableEq

/-- Modelled from the spec: membership test in the caller avoid-list kept
by the `DynamicCost` base class (not among the sources). -/
def PedestrianCost.IsUserAvoidEdge (p : PedestrianCost) (edgeid : GraphId) : Bool :=
  p.user_avoid_edges.contains edgeid

/-- The `PedestrianCost` constructor: reads each option with
`pt.get(key, default)`; type-specific defaults for "wheelchair" versus
everything else; ferry penalty and weight derived from `use_ferry`; the
ferry penalty is cast through `uint32_t` (truncation).  No range clamping
occurs in the source. -/
def pedestrianCost (pt : Settings) : PedestrianCost :=
  let type := pt.type.getD "foot"
  let type_ : PedestrianType :=
    if type = "wheelchair" then .kWheelchair
    else if type = "segway" then .kSegway
    else .kFoot
  let use_ferry_ := pt.use_ferry.getD kDefaultUseFerry
  { type_ := type_
    access_mask_ :=
      if type = "wheelchair" then kWheelchairAccess else kPedestrianAccess
    max_distance_ := pt.max_distance.getD
      (if type = "wheelchair" then kMaxDistanceWheelchair else kMaxDistanceFoot)
    mode_weight_ := pt.mode_weight.getD kModeWeight
    transit_start_end_max_distance_ :=
      pt.transit_start_end_max_distance.getD kTransitStartEndMaxDistance
    transit_transfer_max_distance_ :=
      pt.transit_transfer_max_distance.getD kTransitTransferMaxDistance
    minimal_allowed_surface_ :=
      if type = "wheelchair" then Surface.kCompacted else Surface.kPath
    max_grade_ := (⌊pt.max_grade.getD
      (if type = "wheelchair" then (kDefaultMaxGradeWheelchair : ℚ)
       else (kDefaultMaxGradeFoot : ℚ))⌋).toNat
    speed_ := pt.walking_speed.getD
      (if type = "wheelchair" then kDefaultSpeedWheelchair else kDefaultSpeedFoot)
    speedfactor_ := (kSecPerHour * 0.001) /
      pt.walking_speed.getD
        (if type = "wheelchair" then kDefaultSpeedWheelchair else kDefaultSpeedFoot)
    walkway_factor_ := pt.walkway_factor.getD kDefaultWalkwayFactor
    sidewalk_factor_ := pt.sidewalk_factor.getD kDefaultSideWalkFactor
    alley_factor_ := pt.alley_factor.getD kDefaultAlleyFactor
    driveway_factor_ := pt.driveway_factor.getD kDefaultDrivewayFactor
    step_penalty_ := pt.step_penalty.getD
      (if type = "wheelchair" then kDefaultStepPenaltyWheelchair
       else kDefaultStepPenaltyFoot)
    gate_penalty_ := pt.gate_penalty.getD kDefaultGatePenalty
    maneuver_penalty_ := pt.maneuver_penalty.getD kDefaultManeuverPenalty
    country_crossing_cost_ :=
      pt.country_crossing_cost.getD kDefaultCountryCrossingCost
    country_crossing_penalty_ :=
      pt.country_crossing_penalty.getD kDefaultCountryCrossingPenalty
    ferry_cost_ := pt.ferry_cost.getD kDefaultFerryCost
    ferry_penalty_ :=
      if use_ferry_ < 0.5 then
        ((⌊kMaxFerryPenalty * (1 - use_ferry_ * 2)⌋).toNat : ℚ)
      else 0
    ferry_weight_ :=
      if use_ferry_ < 0.5 then 10 - use_ferry_ * 18
      else 1.5 - use_ferry_
    use_ferry_ := use_ferry_
    allow_transit_connections_ := false
    user_avoid_edges := [] }

/-- `PedestrianCost::UseMaxMultiModalDistance`: overrides `max_distance_`
with the per-segment multimodal distance.  The method is non-const, so it
is embedded as an explicit state transformer. -/
def PedestrianCost.UseMaxMultiModalDistance (p : PedestrianCost) :
    Unit × PedestrianCost :=
  ((), { p with max_distance_ := p.transit_start_end_max_distance_ })

/-- `PedestrianCost::GetMaxTransferDistanceMM` (non-const in the source,
embedded as a state transformer; its body only reads). -/
def PedestrianCost.GetMaxTransferDistanceMM (p : PedestrianCost) :
    Nat × PedestrianCost :=
  (p.transit_transfer_max_distance_, p)

/-- `PedestrianCost::GetModeWeight` (non-const in the source, embedded as
a state transformer; its body only reads). -/
def PedestrianCost.GetModeWeight (p : PedestrianCost) : ℚ × PedestrianCost :=
  (p.mode_weight_, p)

/-- `PedestrianCost::access_mode`. -/
def PedestrianCost.access_mode (p : PedestrianCost) : Nat :=
  p.access_mask_

/-- `PedestrianCost::Allowed` (edge form): access bit, surface, shortcut,
user avoid-list, distance budget, and the transit-connection check guarded
by `allow_transit_connections_`. -/
def PedestrianCost.Allowed (p : PedestrianCost) (edge : DirectedEdge)
    (pred : EdgeLabel) (edgeid : GraphId) : Bool :=
  if edge.forwardaccess &&& p.access_mask_ = 0 ∨
      p.minimal_allowed_surface_.toNat < edge.surface.toNat ∨
      edge.is_shortcut = true ∨
      p.IsUserAvoidEdge edgeid = true ∨
      p.max_distance_ < pred.path_distance + edge.length then
    false
  else if p.allow_transit_connections_ = false ∧
      edge.use = Use.kTransitConnection then
    false
  else
    true

/-- `PedestrianCost::AllowedReverse`: evaluated against the opposing
edge's attributes; no distance budget; transit connections always
rejected. -/
def PedestrianCost.AllowedReverse (p : PedestrianCost) (edge : DirectedEdge)
    (pred : EdgeLabel) (opp_edge : DirectedEdge) (opp_edgeid : GraphId) : Bool :=
  if opp_edge.forwardaccess &&& p.access_mask_ = 0 ∨
      p.minimal_allowed_surface_.toNat < opp_edge.surface.toNat ∨
      opp_edge.is_shortcut = true ∨
      p.IsUserAvoidEdge opp_edgeid = true ∨
      opp_edge.use = Use.kTransitConnection then
    false
  else
    true

/-- `PedestrianCost::Allowed` (node form): node access bitmask. -/
def PedestrianCost.AllowedNode (p : PedestrianCost) (node : NodeInfo) : Bool :=
  node.access &&& p.access_mask_ ≠ 0

/-- `PedestrianCost::EdgeCost`: ferries use the edge-stored speed and the
ferry weight; otherwise base time is `length * speedfactor_` and the cost
multiplier is chosen by use classification, then roundabout membership,
defaulting to 1. -/
def PedestrianCost.EdgeCost (p : PedestrianCost) (edge : DirectedEdge) : Cost :=
  if edge.use = Use.kFerry then
    let sec : ℚ := (edge.length : ℚ) * (kSecPerHour * 0.001) / (edge.speed : ℚ)
    { cost := sec * p.ferry_weight_, time := sec }
  else
    let sec : ℚ := (edge.length : ℚ) * p.speedfactor_
    if edge.use = Use.kFootway then
      { cost := sec * p.walkway_factor_, time := sec }
    else if edge.use = Use.kAlley then
      { cost := sec * p.alley_factor_, time := sec }
    else if edge.use = Use.kDriveway then
      { cost := sec * p.driveway_factor_, time := sec }
    else if edge.use = Use.kSidewalk then
      { cost := sec * p.sidewalk_factor_, time := sec }
    else if edge.roundabout = true then
      { cost := sec * kRoundaboutFactor, time := sec }
    else
      { cost := sec, time := sec }

/-- `PedestrianCost::TransitionCost`: steps short-circuit, border-control
or gate node, ferry entry, maneuver penalty off links on a name change,
and crossing costs when the edge has both left and right neighbors. -/
def PedestrianCost.TransitionCost (p : PedestrianCost) (edge : DirectedEdge)
    (node : NodeInfo) (pred : EdgeLabel) : Cost :=
  if edge.use = Use.kSteps then
    { cost := p.step_penalty_, time := 0 }
  else
    let sp1 : ℚ × ℚ :=
      if node.type = NodeType.kBorderControl then
        (p.country_crossing_cost_, p.country_crossing_penalty_)
      else if node.type = NodeType.kGate then (0, p.gate_penalty_)
      else (0, 0)
    let sp2 : ℚ × ℚ :=
      if pred.use ≠ Use.kFerry ∧ edge.use = Use.kFerry then
        (sp1.1 + p.ferry_cost_, sp1.2 + p.ferry_penalty_)
      else sp1
    let idx := pred.opp_local_idx
    let penalty : ℚ :=
      if edge.link = false ∧ node.name_consistency idx edge.localedgeidx = false then
        sp2.2 + p.maneuver_penalty_
      else sp2.2
    let seconds : ℚ :=
      if edge.edge_to_right idx = true ∧ edge.edge_to_left idx = true then
        sp2.1 + kCrossingCosts (edge.stopimpact idx)
      else sp2.1
    { cost := seconds + penalty, time := seconds }

/-- `PedestrianCost::TransitionCostReverse`: the same rules with the local
index, predecessor edge, and current edge supplied directly. -/
def PedestrianCost.TransitionCostReverse (p : PedestrianCost) (idx : Nat)
    (node : NodeInfo) (pred : DirectedEdge) (edge : DirectedEdge) : Cost :=
  if edge.use = Use.kSteps then
    { cost := p.step_penalty_, time := 0 }
  else
    let sp1 : ℚ × ℚ :=
      if node.type = NodeType.kBorderControl then
        (p.country_crossing_cost_, p.country_crossing_penalty_)
      else if node.type = NodeType.kGate then (0, p.gate_penalty_)
      else (0, 0)
    let sp2 : ℚ × ℚ :=
      if pred.use ≠ Use.kFerry ∧ edge.use = Use.kFerry then
        (sp1.1 + p.ferry_cost_, sp1.2 + p.ferry_penalty_)
      else sp1
    let penalty : ℚ :=
      if edge.link = false ∧ node.name_consistency idx edge.localedgeidx = false then
        sp2.2 + p.maneuver_penalty_
      else sp2.2
    let seconds : ℚ :=
      if edge.edge_to_right idx = true ∧ edge.edge_to_left idx = true then
        sp2.1 + kCrossingCosts (edge.stopimpact idx)
      else sp2.1
    { cost := seconds + penalty, time := seconds }

/-- `PedestrianCost::AStarCostFactor`: the speed factor, deflated by the
walkway factor when that factor is below 1. -/
def PedestrianCost.AStarCostFactor (p : PedestrianCost) : ℚ :=
  if p.walkway_factor_ < 1 then p.walkway_factor_ * p.speedfactor_
  else p.speedfactor_

/-- `PedestrianCost::travel_type`: the numeric code of the pedestrian
type. -/
def PedestrianCost.travel_type (p : PedestrianCost) : Nat :=
  p.type_.code

/-- A concrete directed edge with the given use, length (metres) and
edge-stored speed (kph); every other attribute benign. -/
def testEdge (u : Use) (len speed : Nat) : DirectedEdge :=
  { forwardaccess := kPedestrianAccess
    surface := Surface.kPaved
    is_shortcut := false
    use := u
    length := len
    speed := speed
    roundabout := false
    link := false
    localedgeidx := 0
    edge_to_right := fun _ => false
    edge_to_left := fun _ => false
    stopimpact := fun _ => 0 }

/-- A concrete node of the given type with pedestrian access and all
names consistent. -/
def testNode (t : NodeType) : NodeInfo :=
  { type := t
    access := kPedestrianAccess
    name_consistency := fun _ _ => true }

/-- A concrete predecessor label: no distance so far, a plain road edge,
opposing local index 0. -/
def testLabel : EdgeLabel :=
  { path_distance := 0, use := Use.kRoad, opp_local_idx := 0 }

/-- C1: the constructor is claimed to clamp every ranged numeric input
into its declared [min, max].  It does not: `max_distance` 200000 on a
foot profile is stored verbatim, above the declared maximum 100000 of
`kMaxDistanceFootRange`, so the stored value escapes the declared
range. -/
theorem c1_max_distance_escapes_declared_range :
    (pedestrianCost { emptySettings with
        max_distance := some 200000 }).max_distance_ = 200000 ∧
    kMaxDistanceFootRange.max = 100000 ∧
    kMaxDistanceFootRange.max < 200000 := by
  refine ⟨rfl, rfl, ?_⟩
  norm_num [kMaxDistanceFootRange, kMaxDistanceFoot]

/-- C2 counterexample: `UseMaxMultiModalDistance` mutates the profile.
On the default foot profile it overwrites `max_distance_` (100000) with
`transit_start_end_max_distance_` (2415), so the state after the call is
not the state before it. -/
theorem c2_use_max_multimodal_distance_mutates :
    ((pedestrianCost emptySettings).UseMaxMultiModalDistance).2 ≠
      pedestrianCost emptySettings := by
  intro h
  have h2 := congrArg PedestrianCost.max_distance_ h
  simp [PedestrianCost.UseMaxMultiModalDistance, pedestrianCost,
    emptySettings, kTransitStartEndMaxDistance, kMaxDistanceFoot] at h2

/-- C2 amended: among the capability-set operations only
`UseMaxMultiModalDistance` mutates the profile, overwriting
`max_distance_` with `transit_start_end_max_distance_` and leaving every
other field unchanged; `GetMaxTransferDistanceMM` and `GetModeWeight`
(the other non-const methods) leave the whole state unchanged, and the
remaining operations are const methods embedded as pure functions. -/
theorem c2_only_multimodal_override_mutates (p : PedestrianCost) :
    (p.GetMaxTransferDistanceMM).2 = p ∧
    (p.GetModeWeight).2 = p ∧
    (p.UseMaxMultiModalDistance).2 =
      { p with max_distance_ := p.transit_start_end_max_distance_ } :=
  ⟨rfl, rfl, rfl⟩

/-- C3: the A* factor of even the default foot profile exceeds the
cost-per-meter of a ferry edge (speed 20 kph, length 1000 m): the edge
costs 90 ranking units over 1000 m while the factor promises at most
0.9 * (3.6 / 5.1) per meter, about 0.635 — the heuristic is inadmissible
on ferry edges, contradicting the documented contract. -/
theorem c3_astar_factor_inadmissible_on_ferry :
    ((pedestrianCost emptySettings).EdgeCost (testEdge Use.kFerry 1000 20)).cost <
      (pedestrianCost emptySettings).AStarCostFactor *
        ((testEdge Use.kFerry 1000 20).length : ℚ) := by
  have hfw : ("foot" : String) ≠ "wheelchair" := by decide
  norm_num [pedestrianCost, emptySettings, PedestrianCost.EdgeCost,
    PedestrianCost.AStarCostFactor, testEdge, kSecPerHour, kDefaultSpeedFoot,
    kDefaultWalkwayFactor, kDefaultUseFerry, kDefaultSpeedWheelchair, if_neg hfw]

/-- C4: with the unclamped configuration `step_penalty = -100`, the
transition cost onto a steps edge is `\x7b step_penalty_, 0 \x7d`, whose cost
component is negative, violating the claimed nonnegativity invariant. -/
theorem c4_negative_step_penalty_gives_negative_cost :
    ((pedestrianCost { emptySettings with
        step_penalty := some (-100) }).TransitionCost
        (testEdge Use.kSteps 10 0) (testNode NodeType.kStreetIntersection)
        testLabel).cost < 0 := by
  norm_num [pedestrianCost, emptySettings, PedestrianCost.TransitionCost,
    testEdge, testNode, testLabel]

/-- C5: `TransitionCostReverse` applies the identical rules as
`TransitionCost`: whenever the supplied local index equals the label's
opposing local edge index and the predecessor directed edge's use equals
the label's use, the two calls return equal Cost values. -/
theorem c5_transition_cost_reverse_matches_forward (p : PedestrianCost)
    (edge : DirectedEdge) (node : NodeInfo) (predEdge : DirectedEdge)
    (label : EdgeLabel) (idx : Nat)
    (hidx : idx = label.opp_local_idx) (huse : predEdge.use = label.use) :
    p.TransitionCostReverse idx node predEdge edge =
      p.TransitionCost edge node label := by
  subst hidx
  unfold PedestrianCost.TransitionCostReverse PedestrianCost.TransitionCost
  rw [huse]

/-- C5 witness: the equivalence instantiated at the default foot profile,
a gate node, and plain road edges matching `testLabel`. -/
theorem c5_transition_witness :
    (0 : Nat) = testLabel.opp_local_idx ∧
    (testEdge Use.kRoad 5 0).use = testLabel.use ∧
    (pedestrianCost emptySettings).TransitionCostReverse 0
        (testNode NodeType.kGate) (testEdge Use.kRoad 5 0)
        (testEdge Use.kRoad 7 0) =
      (pedestrianCost emptySettings).TransitionCost
        (testEdge Use.kRoad 7 0) (testNode NodeType.kGate) testLabel :=
  ⟨rfl, rfl,
    c5_transition_cost_reverse_matches_forward (pedestrianCost emptySettings)
      (testEdge Use.kRoad 7 0) (testNode NodeType.kGate)
      (testEdge Use.kRoad 5 0) testLabel 0 rfl rfl⟩

/-- The profile built from an otherwise-empty settings object with the
`use_ferry` dial set to `u`. -/
def ferryProfile (u : ℚ) : PedestrianCost :=
  pedestrianCost { emptySettings with use_ferry := some u }

/-- C6 counterexample: the ferry penalty is not the exact linear ramp
`28800 * (1 - 2 d)`.  At `d = 1/10000` the code's `uint32_t` cast stores
28794 while the linear ramp gives 28794.24. -/
theorem c6_ferry_penalty_not_exactly_linear :
    (ferryProfile (1/10000)).ferry_penalty_ ≠
      kMaxFerryPenalty * (1 - 2 * (1/10000)) := by
  have h1 : (ferryProfile (1/10000)).ferry_penalty_ = 28794 := by
    have hc : ((1:ℚ)/10000) < 0.5 := by norm_num
    have hf : ⌊kMaxFerryPenalty * (1 - (1:ℚ)/10000 * 2)⌋ = 28794 := by
      rw [Int.floor_eq_iff]
      norm_num [kMaxFerryPenalty]
    simp only [ferryProfile, pedestrianCost, emptySettings, Option.getD_some,
      if_pos hc, hf]
    decide
  rw [h1]
  norm_num [kMaxFerryPenalty]

/-- C6 amended: for dial `d` in [0,1], the branch below 0.5 stores the
linear ramp `28800 * (1 - 2 d)` truncated to a whole second by the
`uint32_t` cast (hence within 1 s below the ramp) and the weight exactly
`10 - 18 d`; at and above 0.5 the penalty is exactly 0 and the weight
exactly `1.5 - d`; endpoints: (28800, 10) at d = 0, (0, 1) at d = 1/2,
(0, 1/2) at d = 1 — the branches agree at the boundary. -/
theorem c6_ferry_dial_characterization (u : ℚ) (h0 : 0 ≤ u) (h1 : u ≤ 1) :
    (u < 1/2 →
      kMaxFerryPenalty * (1 - u * 2) - 1 < (ferryProfile u).ferry_penalty_ ∧
      (ferryProfile u).ferry_penalty_ ≤ kMaxFerryPenalty * (1 - u * 2) ∧
      (ferryProfile u).ferry_weight_ = 10 - u * 18) ∧
    (1/2 ≤ u →
      (ferryProfile u).ferry_penalty_ = 0 ∧
      (ferryProfile u).ferry_weight_ = 3/2 - u) ∧
    (u = 0 →
      (ferryProfile u).ferry_penalty_ = 28800 ∧
      (ferryProfile u).ferry_weight_ = 10) ∧
    (u = 1/2 →
      (ferryProfile u).ferry_penalty_ = 0 ∧
      (ferryProfile u).ferry_weight_ = 1) ∧
    (u = 1 →
      (ferryProfile u).ferry_penalty_ = 0 ∧
      (ferryProfile u).ferry_weight_ = 1/2) := by
  have hpen : ∀ v : ℚ, v < 1/2 →
      (ferryProfile v).ferry_penalty_ =
        ((⌊kMaxFerryPenalty * (1 - v * 2)⌋).toNat : ℚ) := by
    intro v hv
    have hv2 : v < (0.5 : ℚ) := by norm_num at hv ⊢; exact hv
    simp [ferryProfile, pedestrianCost, emptySettings, if_pos hv2]
  have hpen2 : ∀ v : ℚ, ¬(v < 1/2) → (ferryProfile v).ferry_penalty_ = 0 := by
    intro v hv
    have hv2 : ¬(v < (0.5 : ℚ)) := by norm_num at hv ⊢; exact hv
    simp [ferryProfile, pedestrianCost, emptySettings, if_neg hv2]
  have hwt : ∀ v : ℚ, v < 1/2 → (ferryProfile v).ferry_weight_ = 10 - v * 18 := by
    intro v hv
    have hv2 : v < (0.5 : ℚ) := by norm_num at hv ⊢; exact hv
    simp [ferryProfile, pedestrianCost, emptySettings, if_pos hv2]
  have hwt2 : ∀ v : ℚ, ¬(v < 1/2) → (ferryProfile v).ferry_weight_ = 3/2 - v := by
    intro v hv
    have hv2 : ¬(v < (0.5 : ℚ)) := by norm_num at hv ⊢; exact hv
    simp [ferryProfile, pedestrianCost, emptySettings, if_neg hv2]
    norm_num
  refine ⟨fun hu => ?_, fun hu => ?_, fun hu => ?_, fun hu => ?_, fun hu => ?_⟩
  · have hx : (0 : ℚ) ≤ kMaxFerryPenalty * (1 - u * 2) := by
      have : (0 : ℚ) ≤ 1 - u * 2 := by linarith
      have hk : (0 : ℚ) ≤ kMaxFerryPenalty := by norm_num [kMaxFerryPenalty]
      exact mul_nonneg hk this
    have hfl : (0 : ℤ) ≤ ⌊kMaxFerryPenalty * (1 - u * 2)⌋ :=
      Int.floor_nonneg.mpr hx
    have hcast : ((⌊kMaxFerryPenalty * (1 - u * 2)⌋).toNat : ℚ) =
        ((⌊kMaxFerryPenalty * (1 - u * 2)⌋ : ℤ) : ℚ) := by
      rw [← Int.cast_natCast, Int.toNat_of_nonneg hfl]
    refine ⟨?_, ?_, hwt u hu⟩
    · rw [hpen u hu, hcast]
      have := Int.sub_one_lt_floor (kMaxFerryPenalty * (1 - u * 2))
      exact_mod_cast this
    · rw [hpen u hu, hcast]
      exact Int.floor_le _
  · exact ⟨hpen2 u (not_lt.mpr hu), hwt2 u (not_lt.mpr hu)⟩
  · subst hu
    refine ⟨?_, ?_⟩
    · rw [hpen 0 (by norm_num)]
      have hf : ⌊kMaxFerryPenalty * ((1:ℚ) - 0 * 2)⌋ = 28800 := by
        rw [Int.floor_eq_iff]
        norm_num [kMaxFerryPenalty]
      rw [hf]
      decide
    · rw [hwt 0 (by norm_num)]
      norm_num
  · subst hu
    refine ⟨hpen2 _ (by norm_num), ?_⟩
    rw [hwt2 _ (by norm_num)]
    norm_num
  · subst hu
    refine ⟨hpen2 _ (by norm_num), ?_⟩
    rw [hwt2 _ (by norm_num)]
    norm_num

/-- C6 witness: the characterization applied at dial 1/4: the weight on
the low branch is exactly 10 - 18/4. -/
theorem c6_ferry_dial_witness :
    (ferryProfile (1/4)).ferry_weight_ = 10 - (1/4 : ℚ) * 18 :=
  ((c6_ferry_dial_characterization (1/4) (by norm_num) (by norm_num)).1
    (by norm_num)).2.2

/-- The base traversal time of an edge as the spec words it: length times
the profile's seconds-per-meter factor, except that ferries use a factor
derived from the edge-stored speed. -/
def specBaseTime (p : PedestrianCost) (e : DirectedEdge) : ℚ :=
  if e.use = Use.kFerry then
    (e.length : ℚ) * ((kSecPerHour * 0.001) / (e.speed : ℚ))
  else (e.length : ℚ) * p.speedfactor_

/-- The single cost multiplier as the spec words it: ferry weight first,
then walkway, alley, driveway, sidewalk by use classification in that
order, then the roundabout factor, else 1. -/
def specMultiplier (p : PedestrianCost) (e : DirectedEdge) : ℚ :=
  if e.use = Use.kFerry then p.ferry_weight_
  else if e.use = Use.kFootway then p.walkway_factor_
  else if e.use = Use.kAlley then p.alley_factor_
  else if e.use = Use.kDriveway then p.driveway_factor_
  else if e.use = Use.kSidewalk then p.sidewalk_factor_
  else if e.roundabout = true then kRoundaboutFactor
  else 1

/-- C7: `EdgeCost` returns exactly `\x7b base time * multiplier, base time \x7d`
for the spec's base time and precedence-chosen multiplier, and on edges
matching no favored or avoided case and not in a roundabout, cost equals
time exactly. -/
theorem c7_edge_cost_structure (p : PedestrianCost) (e : DirectedEdge) :
    p.EdgeCost e =
      { cost := specBaseTime p e * specMultiplier p e,
        time := specBaseTime p e } ∧
    (e.use ≠ Use.kFerry ∧ e.use ≠ Use.kFootway ∧ e.use ≠ Use.kAlley ∧
        e.use ≠ Use.kDriveway ∧ e.use ≠ Use.kSidewalk ∧ e.roundabout = false →
      (p.EdgeCost e).cost = (p.EdgeCost e).time) := by
  constructor
  · unfold PedestrianCost.EdgeCost specBaseTime specMultiplier
    split_ifs <;> simp [mul_div_assoc, mul_one]
  · rintro ⟨h1, h2, h3, h4, h5, h6⟩
    unfold PedestrianCost.EdgeCost
    rw [if_neg h1, if_neg h2, if_neg h3, if_neg h4, if_neg h5, if_neg (by simp [h6])]

/-- C7 witness: on a plain 100 m road edge of the default foot profile,
cost equals time. -/
theorem c7_edge_cost_witness :
    ((pedestrianCost emptySettings).EdgeCost (testEdge Use.kRoad 100 0)).cost =
      ((pedestrianCost emptySettings).EdgeCost (testEdge Use.kRoad 100 0)).time :=
  (c7_edge_cost_structure (pedestrianCost emptySettings)
      (testEdge Use.kRoad 100 0)).2
    ⟨by decide, by decide, by decide, by decide, by decide, rfl⟩

/-- Every entry of the crossing-cost table is nonnegative. -/
theorem kCrossingCosts_nonneg (i : Fin 8) : 0 ≤ kCrossingCosts i := by
  fin_cases i <;> norm_num [kCrossingCosts]

/-- C8 counterexample: at a border-control node whose destination edge is
a steps edge, the steps short-circuit returns time 0, strictly below the
default country-crossing cost of 600 s. -/
theorem c8_steps_at_border_control_cex :
    ((pedestrianCost emptySettings).TransitionCost (testEdge Use.kSteps 10 0)
        (testNode NodeType.kBorderControl) testLabel).time <
      (pedestrianCost emptySettings).country_crossing_cost_ := by
  norm_num [pedestrianCost, emptySettings, PedestrianCost.TransitionCost,
    testEdge, testNode, testLabel, kDefaultCountryCrossingCost]

/-- C8 amended: at a border-control node the transition time is at least
the configured country-crossing cost, provided the destination edge is
not a steps edge (the steps short-circuit skips the crossing rule) and
the profile's ferry cost is nonnegative (true of every in-range
configuration). -/
theorem c8_border_crossing_time_lower_bound (p : PedestrianCost)
    (edge : DirectedEdge) (node : NodeInfo) (pred : EdgeLabel)
    (hfc : 0 ≤ p.ferry_cost_) (hsteps : edge.use ≠ Use.kSteps)
    (hnode : node.type = NodeType.kBorderControl) :
    p.country_crossing_cost_ ≤ (p.TransitionCost edge node pred).time := by
  unfold PedestrianCost.TransitionCost
  rw [if_neg hsteps]
  simp only [hnode, if_pos rfl]
  have hcross := kCrossingCosts_nonneg (edge.stopimpact pred.opp_local_idx)
  split_ifs <;> simp only [] <;> linarith

/-- C8 witness: the amended bound at the default foot profile, a plain
road edge and a border-control node (600 ≤ transition time). -/
theorem c8_border_crossing_witness :
    0 ≤ (pedestrianCost emptySettings).ferry_cost_ ∧
    (testEdge Use.kRoad 5 0).use ≠ Use.kSteps ∧
    (testNode NodeType.kBorderControl).type = NodeType.kBorderControl ∧
    (pedestrianCost emptySettings).country_crossing_cost_ ≤
      ((pedestrianCost emptySettings).TransitionCost (testEdge Use.kRoad 5 0)
        (testNode NodeType.kBorderControl) testLabel).time :=
  ⟨by decide, by decide, rfl,
    c8_border_crossing_time_lower_bound (pedestrianCost emptySettings)
      (testEdge Use.kRoad 5 0) (testNode NodeType.kBorderControl) testLabel
      (by decide) (by decide) rfl⟩

/-- An if returning the Bool false on its condition and true otherwise
equals true exactly when the condition fails. -/
theorem ite_false_true_eq_true {c : Prop} [Decidable c] :
    (if c then false else true) = true ↔ ¬c := by
  split_ifs with h <;> simp [h]

/-- C9: `AllowedReverse` holds exactly when the opposing edge has the
profile's access bit, its surface is not worse than the minimal allowed
surface, it is not a shortcut, it is not user-avoided, and it is not a
transit connection; the result does not depend on the predecessor label
(hence not on its accumulated path distance), and flipping
`allow_transit_connections_` on does not change the result. -/
theorem c9_allowed_reverse_characterization (p : PedestrianCost)
    (edge : DirectedEdge) (pred : EdgeLabel) (opp_edge : DirectedEdge)
    (opp_edgeid : GraphId) :
    (p.AllowedReverse edge pred opp_edge opp_edgeid = true ↔
      opp_edge.forwardaccess &&& p.access_mask_ ≠ 0 ∧
      opp_edge.surface.toNat ≤ p.minimal_allowed_surface_.toNat ∧
      opp_edge.is_shortcut ≠ true ∧
      p.IsUserAvoidEdge opp_edgeid ≠ true ∧
      opp_edge.use ≠ Use.kTransitConnection) ∧
    (∀ pred2 : EdgeLabel,
      p.AllowedReverse edge pred2 opp_edge opp_edgeid =
        p.AllowedReverse edge pred opp_edge opp_edgeid) ∧
    (PedestrianCost.AllowedReverse
        { p with allow_transit_connections_ := true } edge pred opp_edge
        opp_edgeid =
      p.AllowedReverse edge pred opp_edge opp_edgeid) := by
  refine ⟨?_, fun pred2 => rfl, rfl⟩
  unfold PedestrianCost.AllowedReverse
  rw [ite_false_true_eq_true]
  push_neg
  tauto

/-- C10: a "segway" settings object yields travel type kSegway (code 2)
while every type-dependent parameter takes the foot value; and for any
type string other than "wheelchair", with any numeric settings, the
type-dependent fields match those of a "foot" profile built from the same
settings. -/
theorem c10_segway_gets_foot_parameterization :
    ((pedestrianCost { emptySettings with type := some "segway" }).travel_type =
        PedestrianType.kSegway.code ∧
      (pedestrianCost { emptySettings with type := some "segway" }).travel_type = 2 ∧
      (pedestrianCost { emptySettings with
          type := some "segway" }).access_mask_ = kPedestrianAccess ∧
      (pedestrianCost { emptySettings with
          type := some "segway" }).max_distance_ = kMaxDistanceFoot ∧
      (pedestrianCost { emptySettings with
          type := some "segway" }).speed_ = kDefaultSpeedFoot ∧
      (pedestrianCost { emptySettings with
          type := some "segway" }).step_penalty_ = kDefaultStepPenaltyFoot ∧
      (pedestrianCost { emptySettings with
          type := some "segway" }).max_grade_ = kDefaultMaxGradeFoot ∧
      (pedestrianCost { emptySettings with
          type := some "segway" }).minimal_allowed_surface_ = Surface.kPath) ∧
    (∀ (s : String) (pt : Settings), s ≠ "wheelchair" →
      (pedestrianCost { pt with type := some s }).access_mask_ =
          (pedestrianCost { pt with type := some "foot" }).access_mask_ ∧
      (pedestrianCost { pt with type := some s }).max_distance_ =
          (pedestrianCost { pt with type := some "foot" }).max_distance_ ∧
      (pedestrianCost { pt with type := some s }).speed_ =
          (pedestrianCost { pt with type := some "foot" }).speed_ ∧
      (pedestrianCost { pt with type := some s }).step_penalty_ =
          (pedestrianCost { pt with type := some "foot" }).step_penalty_ ∧
      (pedestrianCost { pt with type := some s }).max_grade_ =
          (pedestrianCost { pt with type := some "foot" }).max_grade_ ∧
      (pedestrianCost { pt with type := some s }).minimal_allowed_surface_ =
          (pedestrianCost { pt with type := some "foot" }).minimal_allowed_surface_) := by
  constructor
  · refine ⟨rfl, rfl, rfl, rfl, rfl, rfl, ?_, rfl⟩
    decide
  · intro s pt hs
    have hfw : ("foot" : String) ≠ "wheelchair" := by decide
    simp [pedestrianCost, Option.getD_some, if_neg hs, if_neg hfw]

/-- C10 witness: the non-wheelchair rule applied at the concrete string
"segway" and empty settings, giving equal access masks. -/
theorem c10_segway_witness :
    ("segway" : String) ≠ "wheelchair" ∧
    (pedestrianCost { emptySettings with type := some "segway" }).access_mask_ =
      (pedestrianCost { emptySettings with type := some "foot" }).access_mask_ :=
  ⟨by decide,
    ((c10_segway_gets_foot_parameterization.2 "segway" emptySettings
      (by decide)).1)⟩

end Valhalla
